import Mathlib

/-!
Verification of the Reolink camera config flow
(`custom_components/reolink/config_flow.py` and
`custom_components/reolink/const.py`).

The flow handlers are embedded as pure functions.  Everything the code
obtains from its collaborators — the camera client (`ReolinkHost` /
`host.api`), the network, the webhook dispatcher and the entry store —
is passed in explicitly as oracle data (probe signals, device
attributes, callback deliveries), and the side effects the code
performs (disabling privacy mode, the settle sleep, probing, session
teardown, exception logging) are recorded in an explicit event trace.
-/

namespace Reolink

/-! ### Constants

From `homeassistant.const`, `const.py` and the module-level constants of
`config_flow.py`. -/

def CONF_HOST : String := "host"

def CONF_USERNAME : String := "username"

def CONF_PASSWORD : String := "password"

def CONF_PORT : String := "port"

def CONF_PROTOCOL : String := "protocol"

def CONF_USE_HTTPS : String := "use_https"

def CONF_BC_PORT : String := "baichuan_port"

def CONF_SUPPORTS_PRIVACY_MODE : String := "privacy_mode_supported"

def CONF_ONVIF_EVENTS_REVERSE_PROXY : String := "onvif_events_reverse_proxy"

def DEFAULT_PROTOCOL : String := "rtsp"

def DEFAULT_ONVIF_EVENTS_REVERSE_PROXY : String := ""

/-- `API_STARTUP_TIME = 5`: the settle delay (seconds) granted to the
camera after privacy mode is disabled. -/
def API_STARTUP_TIME : Nat := 5

/-- `WEBHOOK_REACHABILITY_TEST_TIMEOUT = 10`: bound (seconds) on the
webhook reachability probe. -/
def WEBHOOK_REACHABILITY_TEST_TIMEOUT : Nat := 10

/-- Opaque constant imported from the external device-client library
(`reolink_aio.api.ALLOWED_SPECIAL_CHARS`).  The flow only forwards it
into a display placeholder, so its concrete value is irrelevant here and
it is modelled by an abstract token. -/
def ALLOWED_SPECIAL_CHARS : String := "ALLOWED_SPECIAL_CHARS"

def troubleshootingLink : String :=
  "https://www.home-assistant.io/integrations/reolink/#troubleshooting"

def downloadCenterUrl : String := "https://reolink.com/download-center"

def moreInfoUrl : String :=
  "https://www.home-assistant.io/more-info/no-url-available/#configuring-the-instance-url"

/-- ASCII lowercasing of one character. -/
def lowerChar (c : Char) : Char :=
  if 'A' ≤ c ∧ c ≤ 'Z' then Char.ofNat (c.toNat + 32) else c

/-- Modelled from the spec: the host framework's MAC normalization
(`homeassistant.helpers.device_registry.format_mac`, an external
collaborator).  The flow only compares normalized values for equality,
so normalization is modelled as ASCII lowercasing. -/
def format_mac (mac : String) : String :=
  String.mk (mac.data.map lowerChar)

/-! ### Data model -/

/-- The dict submitted on the `user` step: host (the key may be absent,
modelled as `none`), username and password.  Port / https / secondary
port overrides offered on retry forms are overwritten by discovered
values on success and never branch the flow, so they are not carried. -/
structure UserInput where
  host : Option String
  username : String
  password : String
deriving Repr, DecidableEq

/-- Read-only attributes of the camera client (`host.api`) consulted by
the flow after a probe attempt. -/
structure DeviceInfo where
  username : String
  user_level : String
  sw_version : String
  /-- `host.api.sw_version_required.version_string` -/
  sw_version_required : String
  port : Nat
  use_https : Bool
  /-- `host.api.baichuan.port` -/
  baichuan_port : Nat
  /-- `host.api.supported(None, "privacy_mode")` -/
  privacy_mode_supported : Bool
  mac_address : String
  nvr_name : String
deriving Repr, DecidableEq

/-- The exception (or absence of one) raised by the guarded probe block
`host.api.baichuan.set_privacy_mode` / `host.async_init` inside
`async_step_user`.  One constructor per `except` clause of the source;
`reolinkError` covers the joint `except (ReolinkError, ReolinkException)`
clause. -/
inductive ProbeSignal where
  | success
  | userNotAdmin
  | passwordIncompatible
  | loginPrivacyMode
  | credentialsInvalid
  | loginFirmware
  | apiError (msg : String)
  | webhookException (msg : String)
  | reolinkError (msg : String)
  | unexpected (msg : String)
deriving Repr, DecidableEq

/-- One Connection Prober attempt: the signal it raises and the device
attributes readable afterwards. -/
structure DeviceOracle where
  signal : ProbeSignal
  info : DeviceInfo
deriving Repr, DecidableEq

/-- Data of a stored config entry.  Every finalized record carries a
host and a password; `Option` fields model dict keys that may be
absent (`CONF_PASSWORD in existing_entry.data` is tested in
`async_step_dhcp`). -/
structure EntryData where
  host : Option String
  username : String
  password : Option String
  port : Nat
  use_https : Bool
  baichuan_port : Nat
  privacy_mode_supported : Bool
deriving Repr, DecidableEq

/-- The persisted options record: protocol choice plus optional
reverse-proxy address. -/
structure OptionsRecord where
  protocol : String
  reverseProxy : Option String
deriving Repr, DecidableEq

/-- `DEFAULT_OPTIONS` from the source. -/
def DEFAULT_OPTIONS : OptionsRecord :=
  { protocol := DEFAULT_PROTOCOL,
    reverseProxy := some DEFAULT_ONVIF_EVENTS_REVERSE_PROXY }

/-- A stored config entry of the host's entry store (external
collaborator), keyed by the normalized MAC. -/
structure ConfigEntry where
  uniqueId : String
  title : String
  data : EntryData
  options : OptionsRecord
deriving Repr, DecidableEq

/-- Flow trigger source (`self.source`). -/
inductive Source where
  | user
  | dhcp
  | reauth
  | reconfigure
deriving Repr, DecidableEq

/-- Mutable per-flow-instance state of `ReolinkFlowHandler`. -/
structure FlowState where
  host : Option String
  username : String
  password : Option String
  /-- `self._user_input`: the in-flight input stored on a privacy-mode
  block. -/
  userInput : Option UserInput
  /-- `self._disable_privacy` -/
  disablePrivacy : Bool
  source : Source
deriving Repr, DecidableEq

/-- Side effects of one `async_step_user` call, in order: instructing
the prober to disable privacy mode, the settle sleep, the probe
(`host.async_init`), and the unconditional session teardown
(`host.stop`, the `finally` block). -/
inductive Event where
  | setPrivacyOff
  | sleep (seconds : Nat)
  | probeInit
  | stop
deriving Repr, DecidableEq

/-- The flow-step return value.  `createEntry` persists a new record
keyed by the flow's unique id; `updateReload` is
`async_update_reload_and_abort`: per the Entry Store contract it
overwrites the data of the entry with the given unique id in place and
triggers a reload, never creating a record. -/
inductive StepResult where
  | showForm (stepId : String) (errors : List (String × String))
      (placeholders : List (String × String))
  | abort (reason : String)
  | createEntry (uniqueId : String) (title : String) (data : EntryData)
      (options : OptionsRecord)
  | updateReload (uniqueId : String) (data : EntryData)
deriving Repr, DecidableEq

/-- Result of one onboarding-step call: the new flow state, the event
trace, whether an unclassified exception was logged
(`_LOGGER.exception`), and the returned flow result. -/
structure StepOutcome where
  state : FlowState
  trace : List Event
  logged : Bool
  result : StepResult
deriving Repr, DecidableEq

/-- The placeholder dict as initialized at the top of
`async_step_user`. -/
def basePlaceholders : List (String × String) :=
  [("error", ""), ("troubleshooting_link", troubleshootingLink)]

/-- Host merging at the top of `async_step_user`: if `CONF_HOST` is not
in the submitted input it is taken from `self._host`. -/
def merge_host (st : FlowState) (input : UserInput) : Option String :=
  match input.host with
  | some h => some h
  | none => st.host

/-- Effect of a flow result on the entry store (external collaborator,
modelled from the spec's Entry Store contract): `createEntry` appends a
record, `updateReload` overwrites the data of the record with the
matching unique key in place, aborts and forms change nothing. -/
def applyResult (entries : List ConfigEntry) (r : StepResult) :
    List ConfigEntry :=
  match r with
  | .createEntry uid title data opts =>
      entries ++ [{ uniqueId := uid, title := title, data := data,
                    options := opts }]
  | .updateReload uid data =>
      entries.map fun e =>
        if e.uniqueId = uid then { e with data := data } else e
  | _ => entries

/-- `StepResult.createEntry` recognizer. -/
def isCreate : StepResult → Bool
  | .createEntry _ _ _ _ => true
  | _ => false

/-- `ReolinkFlowHandler.async_step_user`.

`ctx` is the entry returned by `_get_reauth_entry` /
`_get_reconfigure_entry` (only consulted for those sources); `entries`
is the entry store used for unique-id lookup; `dev` is the Connection
Prober oracle for this attempt.  `input? = none` is the initial form
display.

In the source, every placeholder mutation acts on the dict initialized
to `basePlaceholders`; each branch below writes out the resulting dict
literally (an assignment to the existing `"error"` key replaces it in
place, new keys are appended).

The framework helpers on the success path are external collaborators
modelled from the spec's Entry Store contract: `async_set_unique_id`
records the normalized MAC as the flow's unique id,
`_abort_if_unique_id_mismatch` aborts with reason
`"unique_id_mismatch"` when that id differs from the reauth/reconfigure
entry's key, `_abort_if_unique_id_configured` (no updates argument)
aborts with `"already_configured"` when some stored record has that
key, mutating nothing. -/
def async_step_user (st : FlowState) (ctx : ConfigEntry)
    (entries : List ConfigEntry) (dev : DeviceOracle)
    (input? : Option UserInput) : StepOutcome :=
  match input? with
  | none =>
      { state := st, trace := [], logged := false,
        result := .showForm "user" [] basePlaceholders }
  | some input =>
      let mergedHost := merge_host st input
      let merged : UserInput := { input with host := mergedHost }
      let st1 : FlowState :=
        { st with username := input.username,
                  password := some input.password, host := mergedHost }
      let tr : List Event :=
        (if st.disablePrivacy then
          [.setPrivacyOff, .sleep API_STARTUP_TIME] else []) ++
          [.probeInit, .stop]
      let step : FlowState × Bool × StepResult :=
        match dev.signal with
        | .userNotAdmin =>
            (st1, false, .showForm "user" [(CONF_USERNAME, "not_admin")]
              [("error", ""),
               ("troubleshooting_link", troubleshootingLink),
               ("username", dev.info.username),
               ("userlevel", dev.info.user_level)])
        | .passwordIncompatible =>
            (st1, false,
             .showForm "user" [(CONF_PASSWORD, "password_incompatible")]
              [("error", ""),
               ("troubleshooting_link", troubleshootingLink),
               ("special_chars", ALLOWED_SPECIAL_CHARS)])
        | .loginPrivacyMode =>
            ({ st1 with userInput := some merged }, false,
             .showForm "privacy" [] [("host", mergedHost.getD "")])
        | .credentialsInvalid =>
            (st1, false,
             .showForm "user" [(CONF_PASSWORD, "invalid_auth")]
               basePlaceholders)
        | .loginFirmware =>
            (st1, false, .showForm "user" [("base", "update_needed")]
              [("error", ""),
               ("troubleshooting_link", troubleshootingLink),
               ("current_firmware", dev.info.sw_version),
               ("needed_firmware", dev.info.sw_version_required),
               ("download_center_url", downloadCenterUrl)])
        | .apiError msg =>
            (st1, false, .showForm "user" [(CONF_HOST, "api_error")]
              [("error", msg),
               ("troubleshooting_link", troubleshootingLink)])
        | .webhookException msg =>
            (st1, false, .showForm "user" [("base", "webhook_exception")]
              [("error", msg),
               ("troubleshooting_link", troubleshootingLink),
               ("more_info", moreInfoUrl)])
        | .reolinkError msg =>
            (st1, false, .showForm "user" [(CONF_HOST, "cannot_connect")]
              [("error", msg),
               ("troubleshooting_link", troubleshootingLink)])
        | .unexpected msg =>
            (st1, true, .showForm "user" [(CONF_HOST, "unknown")]
              [("error", msg),
               ("troubleshooting_link", troubleshootingLink)])
        | .success =>
            let data : EntryData :=
              { host := mergedHost, username := input.username,
                password := some input.password, port := dev.info.port,
                use_https := dev.info.use_https,
                baichuan_port := dev.info.baichuan_port,
                privacy_mode_supported :=
                  dev.info.privacy_mode_supported }
            let mac := format_mac dev.info.mac_address
            let r : StepResult :=
              match st.source with
              | .reauth =>
                  if mac = ctx.uniqueId then .updateReload ctx.uniqueId data
                  else .abort "unique_id_mismatch"
              | .reconfigure =>
                  if mac = ctx.uniqueId then .updateReload ctx.uniqueId data
                  else .abort "unique_id_mismatch"
              | _ =>
                  if entries.any (fun e => e.uniqueId == mac) then
                    .abort "already_configured"
                  else
                    .createEntry mac dev.info.nvr_name data DEFAULT_OPTIONS
            (st1, false, r)
      { state := step.1, trace := tr, logged := step.2.1,
        result := step.2.2 }

/-- `ReolinkFlowHandler.async_step_privacy`.  `consent = true` is a
submission of the confirmation form (`user_input is not None`): it sets
`self._disable_privacy` and re-invokes `async_step_user` with the
stored in-flight input.  `consent = false` is the initial display of
the consent form; nothing changes and nothing is persisted. -/
def async_step_privacy (st : FlowState) (ctx : ConfigEntry)
    (entries : List ConfigEntry) (dev : DeviceOracle)
    (consent : Bool) : StepOutcome :=
  if consent then
    async_step_user { st with disablePrivacy := true } ctx entries dev
      st.userInput
  else
    { state := st, trace := [], logged := false,
      result := .showForm "privacy" []
        [("host", (st.userInput.map fun i => i.host.getD "").getD "")] }

/-! ### DHCP discovery step -/

/-- The DHCP discovery trigger payload. -/
structure DhcpInfo where
  macaddress : String
  ip : String
  hostname : String
deriving Repr, DecidableEq

/-- Result of `async_step_dhcp`.  `abortPlain` is a bare
`AbortFlow("already_configured")`; `abortWithUpdate` is
`_abort_if_unique_id_configured(updates={CONF_HOST: ip})` hitting an
existing record: per the Entry Store contract it writes the new host
into the stored record and then aborts with `"already_configured"`;
`toUser` proceeds to the `user` step with the discovered host
prefilled. -/
inductive DhcpOutcome where
  | abortPlain
  | abortWithUpdate (uniqueId : String) (newHost : String)
  | toUser (prefillHost : String)
deriving Repr, DecidableEq

/-- Abort reason carried by a DHCP outcome, if it aborts. -/
def dhcpReason : DhcpOutcome → Option String
  | .abortPlain => some "already_configured"
  | .abortWithUpdate _ _ => some "already_configured"
  | .toUser _ => none

/-- Effect of a DHCP outcome on the entry store. -/
def applyDhcp (entries : List ConfigEntry) (o : DhcpOutcome) :
    List ConfigEntry :=
  match o with
  | .abortWithUpdate uid newHost =>
      entries.map fun e =>
        if e.uniqueId = uid then
          { e with data := { e.data with host := some newHost } }
        else e
  | _ => entries

/-- `ReolinkFlowHandler.async_step_dhcp`.

Oracle inputs for the external collaborators: `oldConnected` is
`is_connected(hass, existing_entry)` (push channel to the old address
still alive); `newIpProbe` is the outcome of
`host.api.get_state("GetLocalLink")` / `logout()` against the
discovered IP — `Except.error msg` for a raised `ReolinkError`,
`Except.ok probedMac` for success with the device's reported MAC. -/
def async_step_dhcp (entries : List ConfigEntry) (disc : DhcpInfo)
    (oldConnected : Bool) (newIpProbe : Except String String) :
    DhcpOutcome :=
  let mac := format_mac disc.macaddress
  match entries.find? (fun e => e.uniqueId == mac) with
  | some e =>
      if e.data.password.isSome ∧ e.data.host ≠ some disc.ip then
        if oldConnected then .abortPlain
        else
          match newIpProbe with
          | .error _ => .abortPlain
          | .ok probedMac =>
              if format_mac probedMac ≠ mac then .abortPlain
              else .abortWithUpdate mac disc.ip
      else .abortWithUpdate mac disc.ip
  | none => .toUser disc.ip

/-! ### Webhook reachability probe -/

/-- Behavior of the outbound `post(url, data=webhook_id,
raise_for_status=True)` request: how it finishes if allowed to run to
completion. -/
inductive PostOutcome where
  /-- The request completes with a success status. -/
  | success
  /-- Non-success HTTP status: `raise_for_status` raises
  `ClientResponseError` with this status. -/
  | httpError (status : Nat)
  /-- Malformed URL: `InvalidURL` raised. -/
  | invalidUrl
  /-- Any other client error, which the probe does not classify. -/
  | otherError (msg : String)
deriving Repr, DecidableEq

/-- Oracle for one probe attempt: the post outcome, the time (seconds)
until that outcome manifests, and the bodies of the requests the
registered callback endpoint observes before the post completes. -/
structure PostBehavior where
  outcome : PostOutcome
  duration : Nat
  callbacks : List String
deriving Repr, DecidableEq

/-- Exceptions escaping `check_webhook_reachability`. -/
inductive WebhookErr where
  | timeoutErr
  | invalidUrlErr
  | responseErr (status : Nat)
  | otherErr (msg : String)
deriving Repr, DecidableEq

/-- Outcome of one `check_webhook_reachability` call. -/
structure WebhookProbeOutcome where
  /-- The composed probe URL `f"{proxy_addr}{path}"`. -/
  url : String
  /-- Normal return value, or the exception that escapes. -/
  result : Except WebhookErr Bool
  /-- Seconds elapsed when the call finishes. -/
  elapsed : Nat
  /-- Whether the `finally` block unregistered the callback. -/
  unregistered : Bool
deriving Repr

/-- Modelled from the spec: `webhook.async_generate_path` of the host's
inbound-dispatch collaborator — the callback endpoint's generated path
for a webhook id. -/
def webhookPath (webhook_id : String) : String :=
  "/api/webhook/" ++ webhook_id

/-- `ReolinkOptionsFlowHandler.check_webhook_reachability`.

`webhook_id` is the generated single-use token (it is both the callback
key and the posted body).  If the post does not complete within
`WEBHOOK_REACHABILITY_TEST_TIMEOUT` the `async_timeout` context raises
`TimeoutError`; otherwise the post's own outcome decides.  On a
completed post the function returns whether some observed callback body
equalled the token (`webhook_id == data` in `handle_webhook`).  The
`finally` block unregisters the callback on every path. -/
def check_webhook_reachability (proxy_addr : String)
    (webhook_id : String) (b : PostBehavior) : WebhookProbeOutcome :=
  let url := proxy_addr ++ webhookPath webhook_id
  if WEBHOOK_REACHABILITY_TEST_TIMEOUT ≤ b.duration then
    { url := url, result := .error .timeoutErr,
      elapsed := WEBHOOK_REACHABILITY_TEST_TIMEOUT, unregistered := true }
  else
    match b.outcome with
    | .invalidUrl =>
        { url := url, result := .error .invalidUrlErr,
          elapsed := b.duration, unregistered := true }
    | .httpError s =>
        { url := url, result := .error (.responseErr s),
          elapsed := b.duration, unregistered := true }
    | .otherError m =>
        { url := url, result := .error (.otherErr m),
          elapsed := b.duration, unregistered := true }
    | .success =>
        { url := url,
          result := .ok (b.callbacks.any (fun d => d == webhook_id)),
          elapsed := b.duration, unregistered := true }

/-! ### Options flow -/

/-- The dict submitted on the options `init` step: required protocol
choice and optional reverse-proxy address (`none` = key absent). -/
structure OptionsInput where
  protocol : String
  reverseProxy : Option String
deriving Repr, DecidableEq

/-- Return value of the options `init` step.  `showForm` carries the
error/placeholder dicts plus the handler's redisplay defaults
(`self.protocol`, `self.webhook_reverse_proxy`) after the call. -/
inductive OptionsResult where
  | createEntry (data : OptionsInput)
  | showForm (errors : List (String × String))
      (placeholders : List (String × String))
      (protocol : String) (reverseProxy : Option String)
deriving Repr, DecidableEq

/-- Outcome of one `async_step_init` call; `result = .error msg` is an
exception the step does not catch. -/
structure OptionsOutcome where
  result : Except String OptionsResult
  /-- Whether `check_webhook_reachability` was invoked. -/
  probeInvoked : Bool
deriving Repr

/-- Python truthiness of the optional reverse-proxy string: absent or
empty is falsy. -/
def truthy (o : Option String) : Bool := o.getD "" ≠ ""

/-- `ReolinkOptionsFlowHandler.async_step_init`.

`stored` is `self.config_options` (the persisted options record);
`selfProtocol` / `selfProxy` are the handler's current redisplay
defaults; `webhook_id` and `b` are the oracle for the probe, used only
when the probe fires.  The probe fires only when the submitted
reverse proxy is truthy and differs from the stored value
(`if reverse_proxy and reverse_proxy != self.config_options.get(...)`).
With no errors the step persists the submitted input unchanged
(`async_create_entry(data=user_input)`); on a classified probe error it
redisplays with the entered values retained. -/
def async_step_init (stored : OptionsRecord) (selfProtocol : String)
    (selfProxy : Option String) (webhook_id : String) (b : PostBehavior)
    (input? : Option OptionsInput) : OptionsOutcome :=
  match input? with
  | none =>
      { result := .ok (.showForm [] [] selfProtocol selfProxy),
        probeInvoked := false }
  | some input =>
      let rp := input.reverseProxy
      if truthy rp && (rp != stored.reverseProxy) then
        let pr := check_webhook_reachability (rp.getD "") webhook_id b
        let res : Except String OptionsResult :=
          match pr.result with
          | .ok true => .ok (.createEntry input)
          | .ok false =>
              .ok (.showForm
                [(CONF_ONVIF_EVENTS_REVERSE_PROXY,
                  "webhook_test_unreachable")] [] input.protocol rp)
          | .error .timeoutErr =>
              .ok (.showForm
                [(CONF_ONVIF_EVENTS_REVERSE_PROXY,
                  "webhook_test_timeout")] [] input.protocol rp)
          | .error .invalidUrlErr =>
              .ok (.showForm
                [(CONF_ONVIF_EVENTS_REVERSE_PROXY,
                  "webhook_test_invalid_url")] [] input.protocol rp)
          | .error (.responseErr s) =>
              .ok (.showForm
                [(CONF_ONVIF_EVENTS_REVERSE_PROXY,
                  "webhook_test_error_response")]
                [("response_code", toString s)] input.protocol rp)
          | .error (.otherErr m) => .error m
        { result := res, probeInvoked := true }
      else
        { result := .ok (.createEntry input), probeInvoked := false }

/-! ### Concrete fixtures used by witnesses and counterexamples -/

/-- A stored record's data. -/
def d0 : EntryData :=
  { host := some "192.168.1.10", username := "admin",
    password := some "pw", port := 443, use_https := true,
    baichuan_port := 9000, privacy_mode_supported := true }

/-- A stored config entry keyed by a normalized MAC. -/
def e0 : ConfigEntry :=
  { uniqueId := "aa:aa:aa:aa:aa:aa", title := "Camera", data := d0,
    options := DEFAULT_OPTIONS }

/-- A submitted credential form. -/
def in0 : UserInput :=
  { host := some "192.168.1.20", username := "admin", password := "pw2" }

/-- Device attributes whose normalized MAC matches `e0`. -/
def info0 : DeviceInfo :=
  { username := "admin", user_level := "admin", sw_version := "3.0.0",
    sw_version_required := "3.1.0", port := 443, use_https := true,
    baichuan_port := 9000, privacy_mode_supported := true,
    mac_address := "AA:AA:AA:AA:AA:AA", nvr_name := "Camera" }

/-- Device attributes whose normalized MAC differs from `e0`. -/
def info1 : DeviceInfo := { info0 with mac_address := "bb:bb:bb:bb:bb:bb" }

/-- Fresh user-initiated flow state. -/
def st_user : FlowState :=
  { host := none, username := "admin", password := none,
    userInput := none, disablePrivacy := false, source := .user }

/-- Reauthentication flow state prefilled from `e0`. -/
def st_reauth : FlowState :=
  { st_user with
    source := .reauth,
    host := some "192.168.1.10",
    password := some "pw" }

/-- DHCP discovery payload reporting `e0`'s device at a new address. -/
def disc0 : DhcpInfo :=
  { macaddress := "AA:AA:AA:AA:AA:AA", ip := "192.168.1.30",
    hostname := "camera" }

/-- Post behavior: the outbound request completes at once with a
success status and no callback is ever delivered. -/
def b_nocallback : PostBehavior :=
  { outcome := .success, duration := 0, callbacks := [] }

/-- Post behavior: the request completes quickly and the proxy echoes
the token back to the callback in time. -/
def b_echo : PostBehavior :=
  { outcome := .success, duration := 1, callbacks := ["tok"] }

/-- Post behavior: the request does not complete within the bound. -/
def b_hang : PostBehavior :=
  { outcome := .success,
    duration := WEBHOOK_REACHABILITY_TEST_TIMEOUT, callbacks := [] }

/-- Options submission with a new, truthy reverse proxy. -/
def opt_in_new : OptionsInput :=
  { protocol := "rtsp", reverseProxy := some "http://proxy.example" }

/-- Options submission whose reverse proxy equals the stored value. -/
def opt_in_same : OptionsInput :=
  { protocol := "flv", reverseProxy := some "" }

/-! ### Helper lemmas -/

/-- `async_step_user` never changes `_disable_privacy`. -/
theorem async_step_user_disablePrivacy (st : FlowState)
    (ctx : ConfigEntry) (entries : List ConfigEntry) (dev : DeviceOracle)
    (input? : Option UserInput) :
    (async_step_user st ctx entries dev input?).state.disablePrivacy
      = st.disablePrivacy := by
  obtain ⟨sig, info⟩ := dev
  cases input? <;> cases sig <;> rfl

/-! ### Claims -/

/-- C1: for every classified failure signal raised by the Connection
Prober during a credential submission, `async_step_user` produces
exactly the field-scoped error code, display placeholders and
next-state decision of the §4.1 classification table: lacking admin
privilege → username-field `not_admin` with the offending username and
privilege level; incompatible password encoding → password-field
`password_incompatible` with the allowed special characters;
privacy-mode block → the privacy-consent form naming the target host;
invalid credentials → password-field `invalid_auth` with no extra
placeholders; firmware too old → base `update_needed` with current
version, required version and the download-center reference; structured
API error → host-field `api_error` with the raw error text; webhook
setup failure → base `webhook_exception` with the raw error text and
the configuration-guidance reference; generic connectivity failure →
host-field `cannot_connect` with the raw error text; and any other
unclassified failure → host-field `unknown` with the raw error text,
additionally logged with full diagnostic detail (and no other branch
logs). -/
theorem c1_failure_classification (st : FlowState) (ctx : ConfigEntry)
    (entries : List ConfigEntry) (info : DeviceInfo) (input : UserInput)
    (msg : String) :
    ((async_step_user st ctx entries ⟨.userNotAdmin, info⟩
        (some input)).result
      = .showForm "user" [(CONF_USERNAME, "not_admin")]
          [("error", ""), ("troubleshooting_link", troubleshootingLink),
           ("username", info.username), ("userlevel", info.user_level)]
     ∧ (async_step_user st ctx entries ⟨.userNotAdmin, info⟩
          (some input)).logged = false)
  ∧ ((async_step_user st ctx entries ⟨.passwordIncompatible, info⟩
        (some input)).result
      = .showForm "user" [(CONF_PASSWORD, "password_incompatible")]
          [("error", ""), ("troubleshooting_link", troubleshootingLink),
           ("special_chars", ALLOWED_SPECIAL_CHARS)]
     ∧ (async_step_user st ctx entries ⟨.passwordIncompatible, info⟩
          (some input)).logged = false)
  ∧ ((async_step_user st ctx entries ⟨.loginPrivacyMode, info⟩
        (some input)).result
      = .showForm "privacy" []
          [("host", (merge_host st input).getD "")]
     ∧ (async_step_user st ctx entries ⟨.loginPrivacyMode, info⟩
          (some input)).logged = false)
  ∧ ((async_step_user st ctx entries ⟨.credentialsInvalid, info⟩
        (some input)).result
      = .showForm "user" [(CONF_PASSWORD, "invalid_auth")]
          basePlaceholders
     ∧ (async_step_user st ctx entries ⟨.credentialsInvalid, info⟩
          (some input)).logged = false)
  ∧ ((async_step_user st ctx entries ⟨.loginFirmware, info⟩
        (some input)).result
      = .showForm "user" [("base", "update_needed")]
          [("error", ""), ("troubleshooting_link", troubleshootingLink),
           ("current_firmware", info.sw_version),
           ("needed_firmware", info.sw_version_required),
           ("download_center_url", downloadCenterUrl)]
     ∧ (async_step_user st ctx entries ⟨.loginFirmware, info⟩
          (some input)).logged = false)
  ∧ ((async_step_user st ctx entries ⟨.apiError msg, info⟩
        (some input)).result
      = .showForm "user" [(CONF_HOST, "api_error")]
          [("error", msg), ("troubleshooting_link", troubleshootingLink)]
     ∧ (async_step_user st ctx entries ⟨.apiError msg, info⟩
          (some input)).logged = false)
  ∧ ((async_step_user st ctx entries ⟨.webhookException msg, info⟩
        (some input)).result
      = .showForm "user" [("base", "webhook_exception")]
          [("error", msg), ("troubleshooting_link", troubleshootingLink),
           ("more_info", moreInfoUrl)]
     ∧ (async_step_user st ctx entries ⟨.webhookException msg, info⟩
          (some input)).logged = false)
  ∧ ((async_step_user st ctx entries ⟨.reolinkError msg, info⟩
        (some input)).result
      = .showForm "user" [(CONF_HOST, "cannot_connect")]
          [("error", msg), ("troubleshooting_link", troubleshootingLink)]
     ∧ (async_step_user st ctx entries ⟨.reolinkError msg, info⟩
          (some input)).logged = false)
  ∧ ((async_step_user st ctx entries ⟨.unexpected msg, info⟩
        (some input)).result
      = .showForm "user" [(CONF_HOST, "unknown")]
          [("error", msg), ("troubleshooting_link", troubleshootingLink)]
     ∧ (async_step_user st ctx entries ⟨.unexpected msg, info⟩
          (some input)).logged = true) :=
  ⟨⟨rfl, rfl⟩, ⟨rfl, rfl⟩, ⟨rfl, rfl⟩, ⟨rfl, rfl⟩, ⟨rfl, rfl⟩,
   ⟨rfl, rfl⟩, ⟨rfl, rfl⟩, ⟨rfl, rfl⟩, rfl, rfl⟩

/-- C2: on every exit path of a credential-submission attempt — success
and every classified or unexpected failure signal — the probing
session's teardown (`host.stop()`, run by the `finally` block) occurs
exactly once in the trace; and on every exit path of the webhook
reachability probe — success, timeout, malformed URL, non-success
HTTP status or any other error — the registered callback endpoint is
unregistered. -/
theorem c2_unconditional_cleanup :
    (∀ (st : FlowState) (ctx : ConfigEntry) (entries : List ConfigEntry)
        (dev : DeviceOracle) (input : UserInput),
      (async_step_user st ctx entries dev
          (some input)).trace.count .stop = 1)
  ∧ ∀ (proxy webhook_id : String) (b : PostBehavior),
      (check_webhook_reachability proxy webhook_id b).unregistered
        = true := by
  constructor
  · intro st ctx entries dev input
    obtain ⟨h, u, p, ui, dp, src⟩ := st
    cases dp <;> rfl
  · intro proxy webhook_id b
    unfold check_webhook_reachability
    dsimp only
    split
    · rfl
    · split <;> rfl

/-- C3: in an onboarding flow that is not a reauthentication or
reconfiguration, when the successfully probed device's normalized MAC
equals the unique key of an already stored record, the flow aborts with
`"already_configured"` and the entry store is left unchanged — no
record is created and none is mutated. -/
theorem c3_duplicate_unique_id_aborts (st : FlowState)
    (ctx : ConfigEntry) (entries : List ConfigEntry) (info : DeviceInfo)
    (input : UserInput)
    (hsrc : st.source = .user ∨ st.source = .dhcp)
    (hdup : entries.any
      (fun e => e.uniqueId == format_mac info.mac_address) = true) :
    (async_step_user st ctx entries ⟨.success, info⟩
        (some input)).result = .abort "already_configured"
    ∧ applyResult entries
        (async_step_user st ctx entries ⟨.success, info⟩
          (some input)).result = entries := by
  have hres : (async_step_user st ctx entries ⟨.success, info⟩
      (some input)).result = .abort "already_configured" := by
    rcases hsrc with h | h <;> simp [async_step_user, h, hdup]
  refine ⟨hres, ?_⟩
  rw [hres]
  rfl

/-- Witness for C3 at a concrete duplicate: a fresh user flow probing a
device whose normalized MAC matches stored entry `e0`. -/
theorem c3_duplicate_unique_id_aborts_witness :
    (async_step_user st_user e0 [e0] ⟨.success, info0⟩
        (some in0)).result = .abort "already_configured"
    ∧ applyResult [e0]
        (async_step_user st_user e0 [e0] ⟨.success, info0⟩
          (some in0)).result = [e0] :=
  c3_duplicate_unique_id_aborts st_user e0 [e0] info0 in0 (Or.inl rfl)
    (by decide)

/-- Counterexample to C4: a reauthentication flow whose successful
probe discovers a unique key different from the stored record's key
does not overwrite-and-reload; it aborts with `"unique_id_mismatch"`,
leaving the store untouched.  (The claim asserts an in-place
update-and-reload even if the key were to change.) -/
theorem c4_counterexample :
    (async_step_user st_reauth e0 [e0] ⟨.success, info1⟩
        (some in0)).result = .abort "unique_id_mismatch"
    ∧ applyResult [e0]
        (async_step_user st_reauth e0 [e0] ⟨.success, info1⟩
          (some in0)).result = [e0]
    ∧ isCreate (async_step_user st_reauth e0 [e0] ⟨.success, info1⟩
        (some in0)).result = false := by
  refine ⟨?_, ?_, ?_⟩ <;> decide

/-- C4 as amended: for every reauthentication or reconfiguration flow
that reaches a successful probe, if the discovered unique key equals
the stored record's key the flow overwrites that record's data in
place and triggers a reload (in particular a changed submitted host
with an unchanged key yields an in-place update-and-reload); if the
key differs, the flow aborts with `"unique_id_mismatch"` and mutates
nothing; in neither case is a new record created. -/
theorem c4_reauth_updates_in_place (st : FlowState) (ctx : ConfigEntry)
    (entries : List ConfigEntry) (info : DeviceInfo) (input : UserInput)
    (hsrc : st.source = .reauth ∨ st.source = .reconfigure) :
    (format_mac info.mac_address = ctx.uniqueId →
      (async_step_user st ctx entries ⟨.success, info⟩
          (some input)).result
        = .updateReload ctx.uniqueId
            { host := merge_host st input, username := input.username,
              password := some input.password, port := info.port,
              use_https := info.use_https,
              baichuan_port := info.baichuan_port,
              privacy_mode_supported := info.privacy_mode_supported })
  ∧ (format_mac info.mac_address ≠ ctx.uniqueId →
      (async_step_user st ctx entries ⟨.success, info⟩
          (some input)).result = .abort "unique_id_mismatch"
      ∧ applyResult entries
          (async_step_user st ctx entries ⟨.success, info⟩
            (some input)).result = entries)
  ∧ isCreate (async_step_user st ctx entries ⟨.success, info⟩
      (some input)).result = false := by
  by_cases hmac : format_mac info.mac_address = ctx.uniqueId
  · refine ⟨fun _ => ?_, fun hne => absurd hmac hne, ?_⟩ <;>
      rcases hsrc with h | h <;> simp [async_step_user, isCreate, h, hmac]
  · have hres : (async_step_user st ctx entries ⟨.success, info⟩
        (some input)).result = .abort "unique_id_mismatch" := by
      rcases hsrc with h | h <;> simp [async_step_user, h, hmac]
    refine ⟨fun he => absurd he hmac,
      fun _ => ⟨hres, by rw [hres]; rfl⟩, ?_⟩
    rw [hres]
    rfl

/-- Witness for C4's amended theorem: a reauthentication with a changed
submitted host (`in0` carries `192.168.1.20`, the stored record
`192.168.1.10`) and an unchanged key updates `e0` in place. -/
theorem c4_reauth_updates_in_place_witness :
    (async_step_user st_reauth e0 [e0] ⟨.success, info0⟩
        (some in0)).result
      = .updateReload e0.uniqueId
          { host := merge_host st_reauth in0, username := in0.username,
            password := some in0.password, port := info0.port,
            use_https := info0.use_https,
            baichuan_port := info0.baichuan_port,
            privacy_mode_supported := info0.privacy_mode_supported } :=
  (c4_reauth_updates_in_place st_reauth e0 [e0] info0 in0
    (Or.inl rfl)).1 (by decide)

/-- C7: after a privacy-mode block, consenting re-invokes the
credential submission with the stored in-flight input and the
disable-privacy flag set, and that resumed submission first instructs
the prober to disable privacy mode and waits the fixed
`API_STARTUP_TIME` settle delay before the probe; declining consent
(the consent form redisplay) leaves the flow state unchanged, performs
no effects and persists nothing. -/
theorem c7_privacy_consent :
    (∀ (st : FlowState) (ctx : ConfigEntry) (entries : List ConfigEntry)
        (dev : DeviceOracle),
      async_step_privacy st ctx entries dev true
        = async_step_user { st with disablePrivacy := true } ctx entries
            dev st.userInput)
  ∧ (∀ (st : FlowState) (ctx : ConfigEntry)
        (entries : List ConfigEntry) (dev : DeviceOracle)
        (i : UserInput),
      (async_step_privacy { st with userInput := some i } ctx entries
          dev true).trace
        = [.setPrivacyOff, .sleep API_STARTUP_TIME, .probeInit, .stop])
  ∧ ∀ (st : FlowState) (ctx : ConfigEntry) (entries : List ConfigEntry)
      (dev : DeviceOracle),
      (async_step_privacy st ctx entries dev false).state = st
      ∧ (async_step_privacy st ctx entries dev false).trace = []
      ∧ applyResult entries
          (async_step_privacy st ctx entries dev false).result
        = entries := by
  refine ⟨fun st ctx entries dev => rfl, fun st ctx entries dev i => rfl,
    fun st ctx entries dev => ⟨rfl, rfl, rfl⟩⟩

/-- C10: within one flow instance the disable-privacy flag is sticky:
`async_step_user` never changes it, a consent submission sets it, and
once set every subsequent credential submission — whatever its input
and whatever its outcome — begins by disabling privacy mode on the
device and waiting the settle delay before the probe (followed by the
unconditional teardown). -/
theorem c10_privacy_flag_sticky :
    (∀ (st : FlowState) (ctx : ConfigEntry) (entries : List ConfigEntry)
        (dev : DeviceOracle) (input? : Option UserInput),
      (async_step_user st ctx entries dev input?).state.disablePrivacy
        = st.disablePrivacy)
  ∧ (∀ (st : FlowState) (ctx : ConfigEntry) (entries : List ConfigEntry)
        (dev : DeviceOracle),
      (async_step_privacy st ctx entries dev
          true).state.disablePrivacy = true)
  ∧ ∀ (st : FlowState) (ctx : ConfigEntry) (entries : List ConfigEntry)
      (dev : DeviceOracle) (input : UserInput),
      (async_step_user { st with disablePrivacy := true } ctx entries
          dev (some input)).trace
        = [.setPrivacyOff, .sleep API_STARTUP_TIME, .probeInit, .stop] := by
  refine ⟨async_step_user_disablePrivacy, fun st ctx entries dev => ?_,
    fun st ctx entries dev input => rfl⟩
  show (async_step_user { st with disablePrivacy := true } ctx entries
      dev st.userInput).state.disablePrivacy = true
  rw [async_step_user_disablePrivacy]

/-- Counterexample to C5: for a proxy URL that accepts the outbound
request (it completes immediately with a success status) but never
calls back, `check_webhook_reachability` returns false at once — zero
elapsed time — not "after exactly the timeout bound elapses". -/
theorem c5_counterexample :
    (check_webhook_reachability "http://proxy.example" "tok"
        b_nocallback).result = .ok false
    ∧ (check_webhook_reachability "http://proxy.example" "tok"
        b_nocallback).elapsed = 0
    ∧ (check_webhook_reachability "http://proxy.example" "tok"
        b_nocallback).elapsed ≠ WEBHOOK_REACHABILITY_TEST_TIMEOUT :=
  ⟨rfl, rfl, by decide⟩

/-- C5 as amended: `check_webhook_reachability` returns true only if
the callback endpoint observed a request whose body exactly equals the
generated token before the timeout bound elapsed.  For a proxy URL
that accepts and answers the outbound request without a matching
callback, it returns false as soon as the outbound request completes
(not after the timeout bound); only when the outbound request fails to
complete within the bound does the attempt end at exactly the bound,
and then a timeout error propagates instead of a false return.  The
callback endpoint is unregistered in every case. -/
theorem c5_check_reachable (proxy webhook_id : String)
    (b : PostBehavior) :
    ((check_webhook_reachability proxy webhook_id b).result = .ok true →
      b.callbacks.any (fun d => d == webhook_id) = true
      ∧ (check_webhook_reachability proxy webhook_id b).elapsed
          < WEBHOOK_REACHABILITY_TEST_TIMEOUT)
  ∧ (b.outcome = .success →
      b.duration < WEBHOOK_REACHABILITY_TEST_TIMEOUT →
      b.callbacks.any (fun d => d == webhook_id) = false →
      (check_webhook_reachability proxy webhook_id b).result = .ok false
      ∧ (check_webhook_reachability proxy webhook_id b).elapsed
          = b.duration)
  ∧ (WEBHOOK_REACHABILITY_TEST_TIMEOUT ≤ b.duration →
      (check_webhook_reachability proxy webhook_id b).result
          = .error .timeoutErr
      ∧ (check_webhook_reachability proxy webhook_id b).elapsed
          = WEBHOOK_REACHABILITY_TEST_TIMEOUT)
  ∧ (check_webhook_reachability proxy webhook_id b).unregistered
      = true := by
  refine ⟨?_, ?_, ?_, ?_⟩
  · intro h
    by_cases ht : WEBHOOK_REACHABILITY_TEST_TIMEOUT ≤ b.duration
    · simp [check_webhook_reachability, ht] at h
    · rcases ho : b.outcome with _ | s | _ | m <;>
        simp [check_webhook_reachability, ht, ho] at h ⊢
      exact ⟨by simpa using h, Nat.lt_of_not_le ht⟩
  · intro ho hlt hno
    have hnt : ¬ WEBHOOK_REACHABILITY_TEST_TIMEOUT ≤ b.duration :=
      Nat.not_le.mpr hlt
    simp [check_webhook_reachability, hnt, ho, hno]
  · intro ht
    simp [check_webhook_reachability, ht]
  · by_cases ht : WEBHOOK_REACHABILITY_TEST_TIMEOUT ≤ b.duration
    · simp [check_webhook_reachability, ht]
    · rcases ho : b.outcome with _ | s | _ | m <;>
        simp [check_webhook_reachability, ht, ho]

/-- Witness for C5's amended theorem: a proxy that echoes the token
back within the bound makes the probe return true, hence the callback
list contains the token and the attempt ends before the bound. -/
theorem c5_check_reachable_witness :
    b_echo.callbacks.any (fun d => d == "tok") = true
    ∧ (check_webhook_reachability "http://proxy.example" "tok"
        b_echo).elapsed < WEBHOOK_REACHABILITY_TEST_TIMEOUT :=
  (c5_check_reachable "http://proxy.example" "tok" b_echo).1 rfl

/-- C6: when the options step invokes the webhook reachability probe,
its outcome is classified for the caller exactly as: timeout →
`webhook_test_timeout`; malformed URL → `webhook_test_invalid_url`;
non-success HTTP response → `webhook_test_error_response` with the
numeric status captured as the `response_code` display placeholder; a
completed request with no matching callback → `webhook_test_unreachable`
— each as a reverse-proxy-field error on the redisplayed form retaining
the entered values. -/
theorem c6_options_probe_classification (stored : OptionsRecord)
    (sp : String) (spx : Option String) (webhook_id : String)
    (input : OptionsInput)
    (hfresh : (truthy input.reverseProxy
        && (input.reverseProxy != stored.reverseProxy)) = true) :
    (∀ b : PostBehavior,
      WEBHOOK_REACHABILITY_TEST_TIMEOUT ≤ b.duration →
      (async_step_init stored sp spx webhook_id b (some input)).result
        = .ok (.showForm
            [(CONF_ONVIF_EVENTS_REVERSE_PROXY, "webhook_test_timeout")]
            [] input.protocol input.reverseProxy))
  ∧ (∀ b : PostBehavior,
      b.duration < WEBHOOK_REACHABILITY_TEST_TIMEOUT →
      b.outcome = .invalidUrl →
      (async_step_init stored sp spx webhook_id b (some input)).result
        = .ok (.showForm
            [(CONF_ONVIF_EVENTS_REVERSE_PROXY,
              "webhook_test_invalid_url")]
            [] input.protocol input.reverseProxy))
  ∧ (∀ (b : PostBehavior) (s : Nat),
      b.duration < WEBHOOK_REACHABILITY_TEST_TIMEOUT →
      b.outcome = .httpError s →
      (async_step_init stored sp spx webhook_id b (some input)).result
        = .ok (.showForm
            [(CONF_ONVIF_EVENTS_REVERSE_PROXY,
              "webhook_test_error_response")]
            [("response_code", toString s)] input.protocol
            input.reverseProxy))
  ∧ ∀ b : PostBehavior,
      b.duration < WEBHOOK_REACHABILITY_TEST_TIMEOUT →
      b.outcome = .success →
      b.callbacks.any (fun d => d == webhook_id) = false →
      (async_step_init stored sp spx webhook_id b (some input)).result
        = .ok (.showForm
            [(CONF_ONVIF_EVENTS_REVERSE_PROXY,
              "webhook_test_unreachable")]
            [] input.protocol input.reverseProxy) := by
  refine ⟨fun b ht => ?_, fun b hlt ho => ?_, fun b s hlt ho => ?_,
    fun b hlt ho hno => ?_⟩
  · simp [async_step_init, hfresh, check_webhook_reachability, ht]
  · have hnt : ¬ WEBHOOK_REACHABILITY_TEST_TIMEOUT ≤ b.duration :=
      Nat.not_le.mpr hlt
    simp [async_step_init, hfresh, check_webhook_reachability, hnt, ho]
  · have hnt : ¬ WEBHOOK_REACHABILITY_TEST_TIMEOUT ≤ b.duration :=
      Nat.not_le.mpr hlt
    simp [async_step_init, hfresh, check_webhook_reachability, hnt, ho]
  · have hnt : ¬ WEBHOOK_REACHABILITY_TEST_TIMEOUT ≤ b.duration :=
      Nat.not_le.mpr hlt
    simp [async_step_init, hfresh, check_webhook_reachability, hnt, ho,
      hno]

/-- Witness for C6 at a concrete timeout: probing a new reverse proxy
whose outbound request never completes within the bound yields the
`webhook_test_timeout` field error. -/
theorem c6_options_probe_classification_witness :
    (async_step_init DEFAULT_OPTIONS "rtsp" (some "") "tok" b_hang
        (some opt_in_new)).result
      = .ok (.showForm
          [(CONF_ONVIF_EVENTS_REVERSE_PROXY, "webhook_test_timeout")]
          [] opt_in_new.protocol opt_in_new.reverseProxy) :=
  (c6_options_probe_classification DEFAULT_OPTIONS "rtsp" (some "")
    "tok" opt_in_new (by decide)).1 b_hang (by decide)

/-- C8: in the options step the webhook reachability probe is invoked
if and only if the submitted reverse-proxy address is present
(non-empty) and differs from the currently stored value; when it is
absent, empty or unchanged, the probe is skipped and the submitted
protocol choice and reverse-proxy address are persisted immediately as
one options record. -/
theorem c8_probe_iff (stored : OptionsRecord) (sp : String)
    (spx : Option String) (webhook_id : String) (b : PostBehavior)
    (input : OptionsInput) :
    (async_step_init stored sp spx webhook_id b
        (some input)).probeInvoked
      = (truthy input.reverseProxy
          && (input.reverseProxy != stored.reverseProxy))
  ∧ ((truthy input.reverseProxy
        && (input.reverseProxy != stored.reverseProxy)) = false →
      (async_step_init stored sp spx webhook_id b (some input)).result
        = .ok (.createEntry input)) := by
  by_cases h : (truthy input.reverseProxy
      && (input.reverseProxy != stored.reverseProxy)) = true
  · refine ⟨?_, fun hf => ?_⟩
    · rw [h]
      simp [async_step_init, h]
    · rw [h] at hf
      cases hf
  · have hf := Bool.eq_false_iff.mpr h
    refine ⟨?_, fun _ => ?_⟩
    · rw [hf]
      simp [async_step_init, hf]
    · simp [async_step_init, hf]

/-- Witness for C8: a submission whose reverse proxy is the empty
string (falsy, hence no address present) skips the probe and persists
immediately. -/
theorem c8_probe_iff_witness :
    (async_step_init DEFAULT_OPTIONS "rtsp" (some "") "tok"
        b_nocallback (some opt_in_same)).probeInvoked
      = (truthy opt_in_same.reverseProxy
          && (opt_in_same.reverseProxy != DEFAULT_OPTIONS.reverseProxy))
    ∧ (async_step_init DEFAULT_OPTIONS "rtsp" (some "") "tok"
        b_nocallback (some opt_in_same)).result
      = .ok (.createEntry opt_in_same) :=
  ⟨(c8_probe_iff DEFAULT_OPTIONS "rtsp" (some "") "tok" b_nocallback
      opt_in_same).1,
   (c8_probe_iff DEFAULT_OPTIONS "rtsp" (some "") "tok" b_nocallback
      opt_in_same).2 (by decide)⟩

/-- C9: for a DHCP discovery where a stored record with the discovered
unique key exists at a different address (a finalized record, so it
carries a password): if the old address is still connected the flow
aborts `"already_configured"` without touching the store; if the
lightweight reachability check against the new address fails, or the
identity (normalized MAC) reported there mismatches, the flow likewise
aborts `"already_configured"` without overwriting; only when the old
address is not connected and the new address answers with the matching
identity does the flow move the record — write the discovered address
into it — and then abort `"already_configured"`. -/
theorem c9_dhcp_readdress (entries : List ConfigEntry) (disc : DhcpInfo)
    (e : ConfigEntry)
    (hfind : entries.find?
      (fun x => x.uniqueId == format_mac disc.macaddress) = some e)
    (hpw : e.data.password.isSome = true)
    (hhost : e.data.host ≠ some disc.ip) :
    (∀ probe : Except String String,
      async_step_dhcp entries disc true probe = .abortPlain)
  ∧ (∀ msg : String,
      async_step_dhcp entries disc false (.error msg) = .abortPlain)
  ∧ (∀ pm : String, format_mac pm ≠ format_mac disc.macaddress →
      async_step_dhcp entries disc false (.ok pm) = .abortPlain)
  ∧ (∀ pm : String, format_mac pm = format_mac disc.macaddress →
      async_step_dhcp entries disc false (.ok pm)
        = .abortWithUpdate (format_mac disc.macaddress) disc.ip)
  ∧ applyDhcp entries .abortPlain = entries
  ∧ dhcpReason .abortPlain = some "already_configured"
  ∧ dhcpReason (.abortWithUpdate (format_mac disc.macaddress) disc.ip)
      = some "already_configured" := by
  refine ⟨fun probe => ?_, fun msg => ?_, fun pm hne => ?_,
    fun pm heq => ?_, rfl, rfl, rfl⟩ <;>
    simp [async_step_dhcp, hfind, hpw, hhost, *]

/-- Witness for C9: `e0` is stored at `192.168.1.10`, DHCP reports its
MAC at `192.168.1.30`, and the old address is still connected — the
flow aborts without moving. -/
theorem c9_dhcp_readdress_witness :
    async_step_dhcp [e0] disc0 true (.ok "AA:AA:AA:AA:AA:AA")
      = .abortPlain :=
  (c9_dhcp_readdress [e0] disc0 e0 (by decide) (by decide)
    (by decide)).1 (.ok "AA:AA:AA:AA:AA:AA")

end Reolink
